import Mathlib

/-!
Verification of the CSS-selector-builder core and the ticket-seller
simulation of `src/objects-tasks.js`, via a shallow embedding.

The JavaScript class `MySuperBaseElementSelector` is embedded as a record
(`selectorsArr`, `output`, `uniqElObj`, `prevTag`, mirroring the
constructor's fields); each append method becomes a function returning
`Except (SelErr × State) State`: the error case carries the object's state
at the moment the exception is thrown, so mutations performed before a
`throw` (the JS methods assign `this.prevTag = tag` before the duplicate
check) are visible in the model exactly as they are to a caller that
catches the exception.
-/

/-- The six fragment categories, the keys of the source's `orderTagList`. -/
inductive Tag
  | element
  | id
  | «class»
  | attribute
  | pseudoClass
  | pseudoElement
deriving Repr, DecidableEq, Fintype

/-- The two error kinds the builder throws. -/
inductive SelErr
  | orderViolation
  | duplicateSingleton
deriving Repr, DecidableEq

/-- The exact message strings of the two `throw new Error(...)` sites. -/
def errorMessage : SelErr → String
  | SelErr.orderViolation =>
      "Selector parts should be arranged in the following order: element, id, class, attribute, pseudo-class, pseudo-element"
  | SelErr.duplicateSingleton =>
      "Element, id and pseudo-element should not occur more then one time inside the selector"

/-- The `uniqElObj` field of the constructor: one seen-flag per singleton category. -/
structure UniqElObj where
  element : Bool
  id : Bool
  pseudoElement : Bool
deriving Repr, DecidableEq, Fintype

/-- State of one `MySuperBaseElementSelector` instance: the constructor's fields.
`prevTag` is the JS field initialised to `false` and later holding a tag string,
modelled as `Option Tag`. -/
structure MySuperBaseElementSelector where
  selectorsArr : List String
  output : String
  uniqElObj : UniqElObj
  prevTag : Option Tag
deriving Repr, DecidableEq

/-- The source's `orderTagList` map: category → order index. -/
def orderTagList : Tag → Nat
  | Tag.element => 0
  | Tag.id => 1
  | Tag.«class» => 2
  | Tag.attribute => 3
  | Tag.pseudoClass => 4
  | Tag.pseudoElement => 5

/-- `new MySuperBaseElementSelector()`: the constructor's initial state. -/
def MySuperBaseElementSelector.mkNew : MySuperBaseElementSelector :=
  { selectorsArr := [], output := "", uniqElObj := { element := false, id := false, pseudoElement := false }, prevTag := none }

/-- The ordering condition as a function of the `prevTag` component alone. -/
def checkOrderCore (pt : Option Tag) (tag : Tag) : Bool :=
  match pt with
  | none => false
  | some p => decide (orderTagList tag < orderTagList p)

/-- The condition `this.prevTag && this.orderTagList[tag] < this.orderTagList[this.prevTag]`
inlined at the top of every append method (the class's `checkOrder` helper is dead code;
this is the live, inlined copy). -/
def checkOrderViolation (self : MySuperBaseElementSelector) (tag : Tag) : Bool :=
  match self.prevTag with
  | none => false
  | some p => decide (orderTagList tag < orderTagList p)

namespace MySuperBaseElementSelector

/-- Method `element(value)`: order check, `prevTag = tag`, duplicate check,
set seen-flag, push `value` unprefixed. -/
def element (self : MySuperBaseElementSelector) (value : String) :
    Except (SelErr × MySuperBaseElementSelector) MySuperBaseElementSelector :=
  if checkOrderViolation self Tag.element then
    Except.error (SelErr.orderViolation, self)
  else
    let self1 := { self with prevTag := some Tag.element }
    if self1.uniqElObj.element then
      Except.error (SelErr.duplicateSingleton, self1)
    else
      Except.ok { self1 with
        uniqElObj := { self1.uniqElObj with element := true },
        selectorsArr := self1.selectorsArr ++ [value] }

/-- Method `id(value)`: order check, `prevTag = tag`, duplicate check,
set seen-flag, push `#value`. -/
def id (self : MySuperBaseElementSelector) (value : String) :
    Except (SelErr × MySuperBaseElementSelector) MySuperBaseElementSelector :=
  if checkOrderViolation self Tag.id then
    Except.error (SelErr.orderViolation, self)
  else
    let self1 := { self with prevTag := some Tag.id }
    if self1.uniqElObj.id then
      Except.error (SelErr.duplicateSingleton, self1)
    else
      Except.ok { self1 with
        uniqElObj := { self1.uniqElObj with id := true },
        selectorsArr := self1.selectorsArr ++ ["#" ++ value] }

/-- Method `class(value)`: order check, `prevTag = tag`, push `.value` (repeatable). -/
def «class» (self : MySuperBaseElementSelector) (value : String) :
    Except (SelErr × MySuperBaseElementSelector) MySuperBaseElementSelector :=
  if checkOrderViolation self Tag.«class» then
    Except.error (SelErr.orderViolation, self)
  else
    Except.ok { self with
      prevTag := some Tag.«class»,
      selectorsArr := self.selectorsArr ++ ["." ++ value] }

/-- Method `attr(value)`: order check (tag `attribute`), `prevTag = tag`,
push `[value]` (repeatable). -/
def attr (self : MySuperBaseElementSelector) (value : String) :
    Except (SelErr × MySuperBaseElementSelector) MySuperBaseElementSelector :=
  if checkOrderViolation self Tag.attribute then
    Except.error (SelErr.orderViolation, self)
  else
    Except.ok { self with
      prevTag := some Tag.attribute,
      selectorsArr := self.selectorsArr ++ ["[" ++ value ++ "]"] }

/-- Method `pseudoClass(value)`: order check, `prevTag = tag`, push `:value` (repeatable). -/
def pseudoClass (self : MySuperBaseElementSelector) (value : String) :
    Except (SelErr × MySuperBaseElementSelector) MySuperBaseElementSelector :=
  if checkOrderViolation self Tag.pseudoClass then
    Except.error (SelErr.orderViolation, self)
  else
    Except.ok { self with
      prevTag := some Tag.pseudoClass,
      selectorsArr := self.selectorsArr ++ [":" ++ value] }

/-- Method `pseudoElement(value)`: order check, `prevTag = tag`, duplicate check,
set seen-flag, push `::value`. -/
def pseudoElement (self : MySuperBaseElementSelector) (value : String) :
    Except (SelErr × MySuperBaseElementSelector) MySuperBaseElementSelector :=
  if checkOrderViolation self Tag.pseudoElement then
    Except.error (SelErr.orderViolation, self)
  else
    let self1 := { self with prevTag := some Tag.pseudoElement }
    if self1.uniqElObj.pseudoElement then
      Except.error (SelErr.duplicateSingleton, self1)
    else
      Except.ok { self1 with
        uniqElObj := { self1.uniqElObj with pseudoElement := true },
        selectorsArr := self1.selectorsArr ++ ["::" ++ value] }

/-- Method `stringify()`: `this.selectorsArr.join('')`. The body only reads. -/
def stringify (self : MySuperBaseElementSelector) : String :=
  String.join self.selectorsArr

/-- `stringify` as a full method call, returning both its value and the
receiver state after the call: the body contains no assignment, so the
state component is the receiver unchanged. -/
def stringifyCall (self : MySuperBaseElementSelector) :
    String × MySuperBaseElementSelector :=
  (String.join self.selectorsArr, self)

/-- Instance method `combine(selector1, combinator, selector2)`: pushes
`${selector1.stringify()} ${combinator} ${selector2.stringify()}` onto the
receiver's `selectorsArr` and returns the receiver. -/
def combine (self : MySuperBaseElementSelector)
    (selector1 : MySuperBaseElementSelector) (combinator : String)
    (selector2 : MySuperBaseElementSelector) : MySuperBaseElementSelector :=
  { self with selectorsArr :=
      self.selectorsArr ++ [selector1.stringify ++ " " ++ combinator ++ " " ++ selector2.stringify] }

/-- `combine` as a full method call over every object it touches: the body
reads `selector1` and `selector2` (via `stringify`) and writes only to the
receiver (`this.selectorsArr.push(...)`), so the returned operand states
are the inputs. -/
def combineCall (self : MySuperBaseElementSelector)
    (selector1 : MySuperBaseElementSelector) (combinator : String)
    (selector2 : MySuperBaseElementSelector) :
    MySuperBaseElementSelector × MySuperBaseElementSelector × MySuperBaseElementSelector :=
  ({ self with selectorsArr :=
      self.selectorsArr ++ [selector1.stringify ++ " " ++ combinator ++ " " ++ selector2.stringify] },
   selector1, selector2)

end MySuperBaseElementSelector

/-- Dispatch an append method by its category tag (for quantifying over the
six near-identical methods). -/
def applyTag : Tag → MySuperBaseElementSelector → String →
    Except (SelErr × MySuperBaseElementSelector) MySuperBaseElementSelector
  | Tag.element, s, v => s.element v
  | Tag.id, s, v => s.id v
  | Tag.«class», s, v => s.«class» v
  | Tag.attribute, s, v => s.attr v
  | Tag.pseudoClass, s, v => s.pseudoClass v
  | Tag.pseudoElement, s, v => s.pseudoElement v

/-- The formatted fragment each method pushes for a given category and value. -/
def fmtFragment : Tag → String → String
  | Tag.element, v => v
  | Tag.id, v => "#" ++ v
  | Tag.«class», v => "." ++ v
  | Tag.attribute, v => "[" ++ v ++ "]"
  | Tag.pseudoClass, v => ":" ++ v
  | Tag.pseudoElement, v => "::" ++ v

/-- The seen-flag a category's method consults, as a function of the
`uniqElObj` record alone (`false` for the repeatable categories, which
have no flag). -/
def seenCore : Tag → UniqElObj → Bool
  | Tag.element, u => u.element
  | Tag.id, u => u.id
  | Tag.pseudoElement, u => u.pseudoElement
  | _, _ => false

/-- The seen-flag a category's method consults in the builder's `uniqElObj`. -/
def seenFlag (t : Tag) (s : MySuperBaseElementSelector) : Bool :=
  seenCore t s.uniqElObj

/-- Run a chain of append calls (a fluent method chain); a thrown error
aborts the chain, carrying the throw-time state. -/
def runChain (s : MySuperBaseElementSelector) :
    List (Tag × String) → Except (SelErr × MySuperBaseElementSelector) MySuperBaseElementSelector
  | [] => Except.ok s
  | (t, v) :: rest =>
      match applyTag t s v with
      | Except.ok s1 => runChain s1 rest
      | Except.error e => Except.error e

/-- Append the same category `n` times (values drawn from `f`). -/
def appendRepeat (t : Tag) (f : Nat → String) :
    Nat → MySuperBaseElementSelector →
    Except (SelErr × MySuperBaseElementSelector) MySuperBaseElementSelector
  | 0, s => Except.ok s
  | n + 1, s =>
      match applyTag t s (f n) with
      | Except.ok s1 => appendRepeat t f n s1
      | Except.error e => Except.error e

/-- Totalised chain runner for stating concrete examples: the state reached,
whether the chain succeeded or stopped at a throw. -/
def buildOk (l : List (Tag × String)) : MySuperBaseElementSelector :=
  match runChain MySuperBaseElementSelector.mkNew l with
  | Except.ok s => s
  | Except.error (_, s) => s

/-- Facade `cssSelectorBuilder.element(value)`:
`new MySuperBaseElementSelector().element(value)`. -/
def cssSelectorBuilder.element (value : String) :
    Except (SelErr × MySuperBaseElementSelector) MySuperBaseElementSelector :=
  MySuperBaseElementSelector.mkNew.element value

/-- Facade `cssSelectorBuilder.id(value)`. -/
def cssSelectorBuilder.id (value : String) :
    Except (SelErr × MySuperBaseElementSelector) MySuperBaseElementSelector :=
  MySuperBaseElementSelector.mkNew.id value

/-- Facade `cssSelectorBuilder.class(value)`. -/
def cssSelectorBuilder.«class» (value : String) :
    Except (SelErr × MySuperBaseElementSelector) MySuperBaseElementSelector :=
  MySuperBaseElementSelector.mkNew.«class» value

/-- Facade `cssSelectorBuilder.attr(value)`. -/
def cssSelectorBuilder.attr (value : String) :
    Except (SelErr × MySuperBaseElementSelector) MySuperBaseElementSelector :=
  MySuperBaseElementSelector.mkNew.attr value

/-- Facade `cssSelectorBuilder.pseudoClass(value)`. -/
def cssSelectorBuilder.pseudoClass (value : String) :
    Except (SelErr × MySuperBaseElementSelector) MySuperBaseElementSelector :=
  MySuperBaseElementSelector.mkNew.pseudoClass value

/-- Facade `cssSelectorBuilder.pseudoElement(value)`. -/
def cssSelectorBuilder.pseudoElement (value : String) :
    Except (SelErr × MySuperBaseElementSelector) MySuperBaseElementSelector :=
  MySuperBaseElementSelector.mkNew.pseudoElement value

/-- Facade `cssSelectorBuilder.combine(selector1, combinator, selector2)`:
`new MySuperBaseElementSelector().combine(...)`. -/
def cssSelectorBuilder.combine (selector1 : MySuperBaseElementSelector)
    (combinator : String) (selector2 : MySuperBaseElementSelector) :
    MySuperBaseElementSelector :=
  MySuperBaseElementSelector.mkNew.combine selector1 combinator selector2

/-- Dispatch a facade factory by category tag. -/
def cssFactory : Tag → String →
    Except (SelErr × MySuperBaseElementSelector) MySuperBaseElementSelector
  | Tag.element, v => cssSelectorBuilder.element v
  | Tag.id, v => cssSelectorBuilder.id v
  | Tag.«class», v => cssSelectorBuilder.«class» v
  | Tag.attribute, v => cssSelectorBuilder.attr v
  | Tag.pseudoClass, v => cssSelectorBuilder.pseudoClass v
  | Tag.pseudoElement, v => cssSelectorBuilder.pseudoElement v

/-- Well-formedness of a builder state: each set singleton seen-flag is
witnessed by a last-category marker at least as high as that category.
This holds for every state reachable from the constructor (see the
preservation lemmas below); it rules out only states no API sequence
can produce. -/
def selectorWFCore (u : UniqElObj) (pt : Option Tag) : Bool :=
  (!u.element || pt.isSome) &&
  (!u.id ||
    (match pt with
     | some p => decide (1 ≤ orderTagList p)
     | none => false)) &&
  (!u.pseudoElement ||
    (match pt with
     | some p => decide (5 ≤ orderTagList p)
     | none => false))

/-- Well-formedness of a builder state (see `selectorWFCore`). -/
def SelectorWF (s : MySuperBaseElementSelector) : Bool :=
  selectorWFCore s.uniqElObj s.prevTag

/-- `sellTickets` from the source: running index and wallet, flag cleared when
a bill after the first exceeds the gross receipts so far; the wallet always
accumulates the whole bill. -/
def sellTicketsGo : Nat → Nat → Bool → List Nat → Bool
  | _, _, isCan, [] => isCan
  | index, wallet, isCan, el :: rest =>
      sellTicketsGo (index + 1) (wallet + el)
        (if index ≠ 0 ∧ el > wallet then false else isCan) rest

/-- `sellTickets(queue)` from the source: `wallet = 0`, `isCan = true`,
`forEach` over the queue. -/
def sellTickets (queue : List Nat) : Bool :=
  sellTicketsGo 0 0 true queue

/-- Modelled from the spec: the ticket seller of the claim — ticket costs 25,
till starts empty, one customer at a time in queue order, change given
greedily from the 25- and 50-bills received so far (for a 50-bill: one 25;
for a 100-bill: a 50 and a 25 when possible, else three 25s). Arguments:
count of 25-bills held, count of 50-bills held, remaining queue. -/
def sellTicketsSpecGo : Nat → Nat → List Nat → Bool
  | _, _, [] => true
  | n25, n50, bill :: rest =>
      if bill = 25 then sellTicketsSpecGo (n25 + 1) n50 rest
      else if bill = 50 then
        if 1 ≤ n25 then sellTicketsSpecGo (n25 - 1) (n50 + 1) rest else false
      else
        if 1 ≤ n50 ∧ 1 ≤ n25 then sellTicketsSpecGo (n25 - 1) (n50 - 1) rest
        else if 3 ≤ n25 then sellTicketsSpecGo (n25 - 3) n50 rest
        else false

/-- Modelled from the spec: `sellTickets` as the claim describes it —
empty till, greedy change. -/
def sellTicketsSpec (queue : List Nat) : Bool :=
  sellTicketsSpecGo 0 0 queue

/-- The `uniqElObj` update a successful append performs (no flag for the
repeatable categories). -/
def setSeenFlag : Tag → UniqElObj → UniqElObj
  | Tag.element, u => { u with element := true }
  | Tag.id, u => { u with id := true }
  | Tag.pseudoElement, u => { u with pseudoElement := true }
  | _, u => u

/-- The state a successful append leaves behind: fragment pushed, seen-flag
set, `prevTag` updated. -/
def okUpdate (t : Tag) (s : MySuperBaseElementSelector) (v : String) :
    MySuperBaseElementSelector :=
  { s with
    selectorsArr := s.selectorsArr ++ [fmtFragment t v],
    uniqElObj := setSeenFlag t s.uniqElObj,
    prevTag := some t }

theorem applyTag_eq (t : Tag) (s : MySuperBaseElementSelector) (v : String) :
    applyTag t s v =
      if checkOrderViolation s t then Except.error (SelErr.orderViolation, s)
      else if seenFlag t s then
        Except.error (SelErr.duplicateSingleton, { s with prevTag := some t })
      else Except.ok (okUpdate t s v) := by
  cases t <;> rfl

theorem join_singleton (x : String) : String.join [x] = x := by
  simp [String.join]

theorem applyTag_ok_arr {t : Tag} {s : MySuperBaseElementSelector} {v : String}
    {s' : MySuperBaseElementSelector} (h : applyTag t s v = Except.ok s') :
    s'.selectorsArr = s.selectorsArr ++ [fmtFragment t v] := by
  rw [applyTag_eq] at h
  split at h
  · exact absurd h (by simp)
  · split at h
    · exact absurd h (by simp)
    · cases h
      rfl

theorem runChain_arr (l : List (Tag × String)) :
    ∀ s s' : MySuperBaseElementSelector, runChain s l = Except.ok s' →
      s'.selectorsArr = s.selectorsArr ++ l.map (fun p => fmtFragment p.1 p.2) := by
  induction l with
  | nil =>
      intro s s' h
      simp [runChain] at h
      simp [h]
  | cons p rest ih =>
      intro s s' h
      obtain ⟨t, v⟩ := p
      unfold runChain at h
      cases hap : applyTag t s v with
      | error e => rw [hap] at h; cases h
      | ok s1 =>
          rw [hap] at h
          rw [ih s1 s' h, applyTag_ok_arr hap]
          simp

theorem applyTag_repeatable_ok {t : Tag}
    (hrep : t = Tag.«class» ∨ t = Tag.attribute ∨ t = Tag.pseudoClass)
    {s : MySuperBaseElementSelector} (hp : s.prevTag = some t) (v : String) :
    applyTag t s v = Except.ok (okUpdate t s v) := by
  rw [applyTag_eq]
  have hc : checkOrderViolation s t = false := by
    simp [checkOrderViolation, hp]
  have hs : seenFlag t s = false := by
    rcases hrep with h | h | h <;> subst h <;> rfl
  rw [hc, hs]
  simp

theorem appendRepeat_ok (t : Tag)
    (hrep : t = Tag.«class» ∨ t = Tag.attribute ∨ t = Tag.pseudoClass)
    (f : Nat → String) :
    ∀ (n : Nat) (s : MySuperBaseElementSelector), s.prevTag = some t →
      ∃ s', appendRepeat t f n s = Except.ok s' ∧ s'.prevTag = some t := by
  intro n
  induction n with
  | zero => exact fun s hp => ⟨s, rfl, hp⟩
  | succ n ih =>
      intro s hp
      unfold appendRepeat
      rw [applyTag_repeatable_ok hrep hp (f n)]
      exact ih (okUpdate t s (f n)) rfl

theorem core_seen_prevTag : ∀ (t : Tag) (u : UniqElObj) (pt : Option Tag),
    selectorWFCore u pt = true → seenCore t u = true → checkOrderCore pt t = false →
    pt = some t := by decide

theorem core_wf_preserved : ∀ (t : Tag) (u : UniqElObj) (pt : Option Tag),
    selectorWFCore u pt = true → checkOrderCore pt t = false →
    selectorWFCore (setSeenFlag t u) (some t) = true := by decide

theorem update_prevTag_self {s : MySuperBaseElementSelector} {t : Tag}
    (h : s.prevTag = some t) : { s with prevTag := some t } = s := by
  cases s
  simp_all

theorem wf_seen_prevTag {t : Tag} {s : MySuperBaseElementSelector}
    (hwf : SelectorWF s = true) (hseen : seenFlag t s = true)
    (hc : checkOrderViolation s t = false) : s.prevTag = some t :=
  core_seen_prevTag t s.uniqElObj s.prevTag hwf hseen hc

theorem applyTag_error_state {t : Tag} {s : MySuperBaseElementSelector} {v : String}
    {e : SelErr} {s' : MySuperBaseElementSelector}
    (hwf : SelectorWF s = true)
    (h : applyTag t s v = Except.error (e, s')) : s' = s := by
  rw [applyTag_eq] at h
  by_cases hc : checkOrderViolation s t
  · simp [hc] at h
    exact h.2.symm
  · by_cases hs : seenFlag t s
    · simp [hc, hs] at h
      have hp := wf_seen_prevTag hwf hs (by simpa using hc)
      rw [← h.2, update_prevTag_self hp]
    · simp [hc, hs] at h

theorem selectorWF_mkNew : SelectorWF MySuperBaseElementSelector.mkNew = true := rfl

theorem selectorWF_ok_preserved {t : Tag} {s : MySuperBaseElementSelector} {v : String}
    {s' : MySuperBaseElementSelector} (hwf : SelectorWF s = true)
    (h : applyTag t s v = Except.ok s') : SelectorWF s' = true := by
  rw [applyTag_eq] at h
  by_cases hc : checkOrderViolation s t
  · simp [hc] at h
  · by_cases hs : seenFlag t s
    · simp [hc, hs] at h
    · simp [hc, hs] at h
      rw [← h]
      exact core_wf_preserved t s.uniqElObj s.prevTag hwf (by simpa using hc)

theorem selectorWF_combine (self s1 : MySuperBaseElementSelector) (c : String)
    (s2 : MySuperBaseElementSelector) :
    SelectorWF (self.combine s1 c s2) = SelectorWF self := rfl

theorem join_append_singleton (l : List String) (x : String) :
    String.join (l ++ [x]) = String.join l ++ x := by
  simp [String.join, List.foldl_append]

/-- C1: for every sequence of append calls that succeeds — i.e. respects the
ascending category order and the singleton limits — `stringify` returns the
concatenation of the per-category formatted fragments in append order with
no separator (id `#v`, class `.v`, attribute `[v]`, pseudo-class `:v`,
pseudo-element `::v`, element `v` unprefixed). -/
theorem claim1_stringify_concat (l : List (Tag × String)) (s' : MySuperBaseElementSelector)
    (h : runChain MySuperBaseElementSelector.mkNew l = Except.ok s') :
    s'.stringify = String.join (l.map (fun p => fmtFragment p.1 p.2)) := by
  have h2 := runChain_arr l MySuperBaseElementSelector.mkNew s' h
  simp [MySuperBaseElementSelector.mkNew] at h2
  simp [MySuperBaseElementSelector.stringify, h2]

theorem claim1_witness :
    runChain MySuperBaseElementSelector.mkNew
        [(Tag.id, "main"), (Tag.«class», "container"), (Tag.«class», "editable")] =
      Except.ok ⟨["#main", ".container", ".editable"], "", ⟨false, true, false⟩, some Tag.«class»⟩ ∧
    MySuperBaseElementSelector.stringify
        ⟨["#main", ".container", ".editable"], "", ⟨false, true, false⟩, some Tag.«class»⟩ =
      String.join ([(Tag.id, "main"), (Tag.«class», "container"), (Tag.«class», "editable")].map
        (fun p => fmtFragment p.1 p.2)) :=
  ⟨rfl, claim1_stringify_concat _ _ rfl⟩

/-- C2: with at least one fragment appended through a category method
(`prevTag = some p`), an append raises `OrderViolation` exactly when the new
category's order index is strictly below `p`'s; and the repeatable
categories (class, attribute, pseudo-class) can be appended any number of
times at their own order level without raising. -/
theorem claim2_orderViolation_iff (s : MySuperBaseElementSelector) (p : Tag)
    (h : s.prevTag = some p) :
    (∀ (t : Tag) (v : String),
        (∃ s', applyTag t s v = Except.error (SelErr.orderViolation, s')) ↔
          orderTagList t < orderTagList p) ∧
    (∀ t : Tag, (t = Tag.«class» ∨ t = Tag.attribute ∨ t = Tag.pseudoClass) → p = t →
        ∀ (f : Nat → String) (n : Nat), ∃ s', appendRepeat t f n s = Except.ok s') := by
  constructor
  · intro t v
    rw [applyTag_eq]
    by_cases hc : checkOrderViolation s t
    · have hlt : orderTagList t < orderTagList p := by
        simpa [checkOrderViolation, h] using hc
      simp [hc, hlt]
    · have hlt : ¬ orderTagList t < orderTagList p := by
        have := (Bool.not_eq_true _).mp hc
        simpa [checkOrderViolation, h] using this
      by_cases hs : seenFlag t s <;> simp [hc, hs, hlt]
  · intro t hrep hpt f n
    obtain ⟨s', hs', _⟩ := appendRepeat_ok t hrep f n s (by rw [h, hpt])
    exact ⟨s', hs'⟩

theorem claim2_witness :
    ((∃ s', applyTag Tag.element ⟨[".a"], "", ⟨false, false, false⟩, some Tag.«class»⟩ "x" =
        Except.error (SelErr.orderViolation, s')) ↔
      orderTagList Tag.element < orderTagList Tag.«class») ∧
    (∃ s', appendRepeat Tag.«class» (fun _ => "c") 3
        ⟨[".a"], "", ⟨false, false, false⟩, some Tag.«class»⟩ = Except.ok s') :=
  ⟨(claim2_orderViolation_iff _ Tag.«class» rfl).1 Tag.element "x",
   (claim2_orderViolation_iff _ Tag.«class» rfl).2 Tag.«class» (Or.inl rfl) rfl (fun _ => "c") 3⟩

/-- C3 counterexample: `element("a").class("b").element("c")` raises
`OrderViolation`, not `DuplicateSingleton` — the order check runs first, so
a repeated singleton with a higher-order fragment appended in between does
not produce the duplicate-singleton error the claim requires. -/
theorem claim3_counterexample :
    runChain MySuperBaseElementSelector.mkNew
        [(Tag.element, "a"), (Tag.«class», "b"), (Tag.element, "c")] =
      Except.error (SelErr.orderViolation,
        ⟨["a", ".b"], "", ⟨true, false, false⟩, some Tag.«class»⟩) ∧
    SelErr.orderViolation ≠ SelErr.duplicateSingleton :=
  ⟨rfl, by decide⟩

/-- C3 (amended): a second `element`/`id`/`pseudoElement` on the same builder
always raises an error, but it is `DuplicateSingleton` (with the message
the claim quotes) exactly when the ordering check passes — i.e. when no
fragment of strictly higher category order was appended since — and
`OrderViolation` otherwise. -/
theorem claim3_amended (t : Tag) (s : MySuperBaseElementSelector) (v : String)
    (_hsing : t = Tag.element ∨ t = Tag.id ∨ t = Tag.pseudoElement)
    (hseen : seenFlag t s = true) :
    (∃ e s', applyTag t s v = Except.error (e, s')) ∧
    (∀ e s', applyTag t s v = Except.error (e, s') →
        (e = SelErr.duplicateSingleton ↔ checkOrderViolation s t = false)) ∧
    errorMessage SelErr.duplicateSingleton =
      "Element, id and pseudo-element should not occur more then one time inside the selector" := by
  refine ⟨?_, ?_, rfl⟩
  · rw [applyTag_eq]
    by_cases hc : checkOrderViolation s t
    · exact ⟨SelErr.orderViolation, s, by simp [hc]⟩
    · exact ⟨SelErr.duplicateSingleton, { s with prevTag := some t }, by simp [hc, hseen]⟩
  · intro e s' herr
    rw [applyTag_eq] at herr
    by_cases hc : checkOrderViolation s t
    · simp [hc] at herr
      simp [← herr.1, hc]
    · simp [hc, hseen] at herr
      simp [← herr.1, (Bool.not_eq_true _).mp hc]

theorem claim3_amended_witness :
    (∃ e s', applyTag Tag.element ⟨["a"], "", ⟨true, false, false⟩, some Tag.element⟩ "b" =
        Except.error (e, s')) ∧
    (∀ e s', applyTag Tag.element ⟨["a"], "", ⟨true, false, false⟩, some Tag.element⟩ "b" =
        Except.error (e, s') →
        (e = SelErr.duplicateSingleton ↔
          checkOrderViolation ⟨["a"], "", ⟨true, false, false⟩, some Tag.element⟩ Tag.element = false)) ∧
    errorMessage SelErr.duplicateSingleton =
      "Element, id and pseudo-element should not occur more then one time inside the selector" :=
  claim3_amended Tag.element ⟨["a"], "", ⟨true, false, false⟩, some Tag.element⟩ "b"
    (Or.inl rfl) rfl

/-- C4: `cssSelectorBuilder.combine` followed by `stringify` yields exactly
`render(left) ++ " " ++ token ++ " " ++ render(right)` for every token
string (the token is inserted verbatim, unvalidated), combined results nest
as operands, and the three-level nesting with tokens `+`, `~` and a space
renders the exact string with three consecutive spaces around the innermost
space token. -/
theorem claim4_combine_render :
    (∀ (s1 : MySuperBaseElementSelector) (tok : String) (s2 : MySuperBaseElementSelector),
      (cssSelectorBuilder.combine s1 tok s2).stringify =
        s1.stringify ++ " " ++ tok ++ " " ++ s2.stringify) ∧
    (cssSelectorBuilder.combine
        (buildOk [(Tag.element, "div"), (Tag.id, "main"), (Tag.«class», "container"),
          (Tag.«class», "draggable")])
        "+"
        (cssSelectorBuilder.combine (buildOk [(Tag.element, "table"), (Tag.id, "data")]) "~"
          (cssSelectorBuilder.combine
            (buildOk [(Tag.element, "tr"), (Tag.pseudoClass, "nth-of-type(even)")]) " "
            (buildOk [(Tag.element, "td"), (Tag.pseudoClass, "nth-of-type(even)")])))).stringify =
      "div#main.container.draggable + table#data ~ tr:nth-of-type(even)   td:nth-of-type(even)" := by
  constructor
  · intro s1 tok s2
    simp [cssSelectorBuilder.combine, MySuperBaseElementSelector.combine,
      MySuperBaseElementSelector.mkNew, MySuperBaseElementSelector.stringify, join_singleton]
  · rfl

/-- C5: both error kinds are raised at the offending append call itself, and
on every well-formed (i.e. reachable) builder state the failed call leaves
the prior state fully intact — fragment list, singleton flags and
last-category marker — so `stringify` afterwards returns the same string as
before the failed append. -/
theorem claim5_error_preserves_state (t : Tag) (s : MySuperBaseElementSelector)
    (v : String) (e : SelErr) (s' : MySuperBaseElementSelector)
    (hwf : SelectorWF s = true)
    (h : applyTag t s v = Except.error (e, s')) :
    s' = s ∧ s'.stringify = s.stringify := by
  have heq := applyTag_error_state hwf h
  exact ⟨heq, by rw [heq]⟩

theorem claim5_witness :
    (⟨["a"], "", ⟨true, false, false⟩, some Tag.element⟩ : MySuperBaseElementSelector) =
      ⟨["a"], "", ⟨true, false, false⟩, some Tag.element⟩ ∧
    MySuperBaseElementSelector.stringify ⟨["a"], "", ⟨true, false, false⟩, some Tag.element⟩ =
      MySuperBaseElementSelector.stringify ⟨["a"], "", ⟨true, false, false⟩, some Tag.element⟩ :=
  claim5_error_preserves_state Tag.element _ "b" SelErr.duplicateSingleton _ (by decide) rfl

/-- C6: `stringify` is pure and idempotent — a call returns the receiver
state unchanged, its value is `stringify`'s, and a second call on the
returned state gives the identical string. -/
theorem claim6_stringify_pure :
    ∀ s : MySuperBaseElementSelector,
      s.stringifyCall.2 = s ∧
      s.stringifyCall.1 = s.stringify ∧
      (s.stringifyCall.2).stringifyCall.1 = s.stringifyCall.1 :=
  fun _ => ⟨rfl, rfl, rfl⟩

/-- C7: every facade factory call instantiates a fresh builder
(`new MySuperBaseElementSelector()`) and appends exactly one fragment to
it; the result depends only on the call's own arguments, so distinct
top-level calls yield independent one-fragment builders and in particular
always succeed — two separate `element(...)` calls never raise
`DuplicateSingleton` against each other. -/
theorem claim7_factory_fresh :
    ∀ (t : Tag) (v : String),
      cssFactory t v = Except.ok (okUpdate t MySuperBaseElementSelector.mkNew v) ∧
      (okUpdate t MySuperBaseElementSelector.mkNew v).selectorsArr = [fmtFragment t v] ∧
      (okUpdate t MySuperBaseElementSelector.mkNew v).stringify = fmtFragment t v := by
  intro t v
  refine ⟨by cases t <;> rfl,
    by simp [okUpdate, MySuperBaseElementSelector.mkNew], ?_⟩
  simp [MySuperBaseElementSelector.stringify, okUpdate, MySuperBaseElementSelector.mkNew,
    join_singleton]

/-- C8: the code contradicts the specified seller simulation — on `[50]` it
returns `true` (the first customer's bill is never checked and change is
never deducted) although the seller cannot give 25 change, and on
`[25, 50, 25]` it returns `false` although the greedy seller has the 25
bill needed for change. -/
theorem claim8_sellTickets_bug :
    sellTickets [50] = true ∧ sellTicketsSpec [50] = false ∧
    sellTickets [25, 50, 25] = false ∧ sellTicketsSpec [25, 50, 25] = true :=
  ⟨rfl, rfl, rfl, rfl⟩

/-- C9: `combine` reads its operands and writes only to the receiver: both
operands come out of the call exactly as they went in, their rendered
strings are unchanged, and the same operand can be used by several combine
calls, each rendering it identically. -/
theorem claim9_combine_frame :
    ∀ (self s1 : MySuperBaseElementSelector) (tok : String) (s2 : MySuperBaseElementSelector)
      (tok2 : String) (s3 : MySuperBaseElementSelector),
      (MySuperBaseElementSelector.combineCall self s1 tok s2).2.1 = s1 ∧
      (MySuperBaseElementSelector.combineCall self s1 tok s2).2.2 = s2 ∧
      ((MySuperBaseElementSelector.combineCall self s1 tok s2).2.1).stringify = s1.stringify ∧
      ((MySuperBaseElementSelector.combineCall self s1 tok s2).2.2).stringify = s2.stringify ∧
      (cssSelectorBuilder.combine s1 tok s2).stringify =
        s1.stringify ++ " " ++ tok ++ " " ++ s2.stringify ∧
      (cssSelectorBuilder.combine s1 tok2 s3).stringify =
        s1.stringify ++ " " ++ tok2 ++ " " ++ s3.stringify := by
  intro self s1 tok s2 tok2 s3
  refine ⟨rfl, rfl, rfl, rfl, ?_, ?_⟩ <;>
    simp [cssSelectorBuilder.combine, MySuperBaseElementSelector.combine,
      MySuperBaseElementSelector.mkNew, MySuperBaseElementSelector.stringify, join_singleton]

/-- C10: the builder returned by `cssSelectorBuilder.combine` has an unset
last-category marker and all three singleton flags false, so every
subsequent append — element, id and pseudoElement included — succeeds, and
`stringify` then returns the combined string immediately followed by the
new formatted fragment. -/
theorem claim10_combine_result_appendable :
    ∀ (s1 : MySuperBaseElementSelector) (tok : String) (s2 : MySuperBaseElementSelector)
      (t : Tag) (v : String),
      (cssSelectorBuilder.combine s1 tok s2).prevTag = none ∧
      (cssSelectorBuilder.combine s1 tok s2).uniqElObj.element = false ∧
      (cssSelectorBuilder.combine s1 tok s2).uniqElObj.id = false ∧
      (cssSelectorBuilder.combine s1 tok s2).uniqElObj.pseudoElement = false ∧
      ∃ s', applyTag t (cssSelectorBuilder.combine s1 tok s2) v = Except.ok s' ∧
        s'.stringify =
          (cssSelectorBuilder.combine s1 tok s2).stringify ++ fmtFragment t v := by
  intro s1 tok s2 t v
  refine ⟨rfl, rfl, rfl, rfl, okUpdate t (cssSelectorBuilder.combine s1 tok s2) v, ?_, ?_⟩
  · rw [applyTag_eq]
    have hc : checkOrderViolation (cssSelectorBuilder.combine s1 tok s2) t = false := rfl
    have hs : seenFlag t (cssSelectorBuilder.combine s1 tok s2) = false := by
      cases t <;> rfl
    rw [hc, hs]
    simp
  · simp [MySuperBaseElementSelector.stringify, okUpdate, join_append_singleton]
